import Mathlib

/-!
Shallow embedding of the `candlestick` Rust crate (files `src/candle_stick.rs`,
`src/candle_stream.rs`).  Prices are modelled as exact rationals `ℚ`; machine
`f64` rounding is outside the scope of the claims settled here, which are about
the index arithmetic of the ring buffer and the comparison logic of the
pattern formulas.  `usize` arithmetic is modelled by `Nat`; the only
subtraction performed by the source (`idx + SERIES_SIZE - n`, guarded by
`n ≤ SERIES_SIZE`) never underflows, so `Nat` truncated subtraction agrees
with it (this fact is itself proved below).
-/

/-- A single OHLCV bar, mirroring the `CandleStick` accessors `open`, `high`,
`low`, `close`, `volume` (implemented for `(f64, f64, f64, f64, f64)` in
`candle_stick.rs`). -/
structure Candle where
  «open» : ℚ
  high : ℚ
  low : ℚ
  close : ℚ
  volume : ℚ
deriving DecidableEq, Repr

/-- `CandleStick::range`: `(self.high() - self.low()).max(0.001)`. -/
def Candle.range (c : Candle) : ℚ :=
  max (c.high - c.low) 0.001

/-- `CandleStick::wick`: `self.high() - self.open().max(self.close())`. -/
def Candle.wick (c : Candle) : ℚ :=
  c.high - max c.«open» c.close

/-- `CandleStick::body`: `((self.open() - self.close()).abs()).max(0.0001)`. -/
def Candle.body (c : Candle) : ℚ :=
  max |c.«open» - c.close| 0.0001

/-- `CandleStick::tail`: `self.open().min(self.close()) - self.low()`. -/
def Candle.tail (c : Candle) : ℚ :=
  min c.«open» c.close - c.low

/-- `CandleStick::wick_range_ratio`: `self.wick() / self.range()`. -/
def Candle.wick_over_range (c : Candle) : ℚ :=
  c.wick / c.range

/-- `CandleStick::wick_body_ratio`: `self.wick() / self.body()`. -/
def Candle.wick_over_body (c : Candle) : ℚ :=
  c.wick / c.body

/-- `CandleStick::body_range_ratio`: `self.body() / self.range()`. -/
def Candle.body_over_range (c : Candle) : ℚ :=
  c.body / c.range

/-- `CandleStick::tail_range_ratio`: `self.tail() / self.range()`. -/
def Candle.tail_over_range (c : Candle) : ℚ :=
  c.tail / c.range

/-- `CandleStick::tail_body_ratio`: `self.tail() / self.body()`. -/
def Candle.tail_over_body (c : Candle) : ℚ :=
  c.tail / c.body

/-- `CandleStick::is_bullish`: `self.open() < self.close()`. -/
def Candle.is_bullish (c : Candle) : Bool :=
  decide (c.«open» < c.close)

/-- `CandleStick::is_bearish`: `self.open() > self.close()`. -/
def Candle.is_bearish (c : Candle) : Bool :=
  decide (c.«open» > c.close)

/-- `CandleStick::is_doji`: `self.body_range_ratio() < self.doji_body_ratio()`,
with the default threshold `doji_body_ratio() = 0.1` inlined (no override is
used anywhere in the sources). -/
def Candle.is_doji (c : Candle) : Bool :=
  decide (c.body_over_range < 0.1)

/-- Modelled from the spec: `utils::midpoint` is declared in `lib.rs`
(`pub(crate) mod utils;`) and used by `candle_stream.rs`, but the file
`src/utils.rs` is not part of the repository snapshot.  The spec defines
`midpoint(a,b) = (a+b)/2`, "compared with strict `<`/`>`". -/
def utils.midpoint (a b : ℚ) : ℚ :=
  (a + b) / 2

/-- `const SERIES_SIZE: usize = 5`. -/
def SERIES_SIZE : Nat := 5

/-- `CandleStream<'s, T> { series: [Option<&'s T>; SERIES_SIZE], idx: usize }`.
The fixed-size array of `Option`s is modelled as a total function from
`Fin SERIES_SIZE`; the non-owning references are modelled by the values
themselves. -/
structure CandleStream (α : Type) where
  series : Fin SERIES_SIZE → Option α
  idx : Nat

/-- `impl Default for CandleStream`: all slots `None`, `idx: 0`
(`CandleStream::new` just calls this). -/
def CandleStream.default (α : Type) : CandleStream α :=
  ⟨fun _ => none, 0⟩

/-- `CandleStream::nth_index`: `None` if `n > SERIES_SIZE`, otherwise
`Some((self.idx + SERIES_SIZE - n) % SERIES_SIZE)`. -/
def CandleStream.nth_index {α : Type} (s : CandleStream α) (n : Nat) : Option Nat :=
  if n > SERIES_SIZE then none
  else some ((s.idx + SERIES_SIZE - n) % SERIES_SIZE)

/-- `CandleStream::at`: bounds-checked slot read,
`if idx < SERIES_SIZE { self.series[idx] } else { None }`. -/
def CandleStream.«at» {α : Type} (s : CandleStream α) (i : Nat) : Option α :=
  if h : i < SERIES_SIZE then s.series ⟨i, h⟩ else none

/-- `CandleStream::get`: `self.at(self.nth_index(1)?)`. -/
def CandleStream.get {α : Type} (s : CandleStream α) : Option α :=
  (s.nth_index 1).bind s.«at»

/-- `CandleStream::prev`: `self.at(self.nth_index(n + 1)?)`. -/
def CandleStream.prev {α : Type} (s : CandleStream α) (n : Nat) : Option α :=
  (s.nth_index (n + 1)).bind s.«at»

/-- `CandleStream::push`: write `Some(candle)` to slot `idx % SERIES_SIZE`,
then `idx = (idx + 1) % SERIES_SIZE`. -/
def CandleStream.push {α : Type} (s : CandleStream α) (c : α) : CandleStream α :=
  ⟨Function.update s.series ⟨s.idx % SERIES_SIZE, Nat.mod_lt _ (by decide)⟩ (some c),
    (s.idx + 1) % SERIES_SIZE⟩

/-- Pushing a whole list of bars in order, starting from a given state
(iterated `CandleStream::push`). -/
def CandleStream.pushList {α : Type} (s : CandleStream α) (bs : List α) : CandleStream α :=
  bs.foldl CandleStream.push s

/-- The spec's `resolve(k)` ("the bar k positions before the most recently
pushed bar"): `resolve(0)` is `current()` = `CandleStream::get`, and for
`k ≥ 1` the lookup goes through `CandleStream::prev`. -/
def CandleStream.resolve {α : Type} (s : CandleStream α) (k : Nat) : Option α :=
  if k = 0 then s.get else s.prev k

/-- `CandleStream::is_bullish_doji_star`.  The Rust body is
`self.get().zip(self.prev(1)).is_some_and(|(c, p)| ...)`; the `zip` +
`is_some_and` combination is modelled by the option match. -/
def CandleStream.is_bullish_doji_star (s : CandleStream Candle) : Bool :=
  match s.get, s.prev 1 with
  | some c, some p => p.is_bearish && c.is_doji && decide (c.high < p.low)
  | _, _ => false

/-- `CandleStream::is_bearish_doji_star`. -/
def CandleStream.is_bearish_doji_star (s : CandleStream Candle) : Bool :=
  match s.get, s.prev 1 with
  | some c, some p => p.is_bullish && c.is_doji && decide (c.low > p.high)
  | _, _ => false

/-- `CandleStream::is_bullish_engulfing`. -/
def CandleStream.is_bullish_engulfing (s : CandleStream Candle) : Bool :=
  match s.get, s.prev 1 with
  | some c, some p =>
      p.is_bearish && c.is_bullish && decide (c.«open» < p.close)
        && decide (c.close > p.«open»)
  | _, _ => false

/-- `CandleStream::is_bearish_engulfing`. -/
def CandleStream.is_bearish_engulfing (s : CandleStream Candle) : Bool :=
  match s.get, s.prev 1 with
  | some c, some p =>
      p.is_bullish && c.is_bearish && decide (c.«open» > p.close)
        && decide (c.close < p.«open»)
  | _, _ => false

/-- `CandleStream::is_bullish_harami`. -/
def CandleStream.is_bullish_harami (s : CandleStream Candle) : Bool :=
  match s.get, s.prev 1 with
  | some c, some p =>
      p.is_bearish && c.is_bullish && decide (c.«open» > p.close)
        && decide (c.close < p.«open»)
  | _, _ => false

/-- `CandleStream::is_bearish_harami`. -/
def CandleStream.is_bearish_harami (s : CandleStream Candle) : Bool :=
  match s.get, s.prev 1 with
  | some c, some p =>
      p.is_bullish && c.is_bearish && decide (c.«open» < p.close)
        && decide (c.close > p.«open»)
  | _, _ => false

/-- `CandleStream::is_dark_cloud_cover`. -/
def CandleStream.is_dark_cloud_cover (s : CandleStream Candle) : Bool :=
  match s.get, s.prev 1 with
  | some c, some p =>
      c.is_bearish && p.is_bullish && decide (c.«open» > p.close)
        && decide (c.close < utils.midpoint p.«open» p.close)
  | _, _ => false

/-- `CandleStream::is_evening_star`. -/
def CandleStream.is_evening_star (s : CandleStream Candle) : Bool :=
  match s.get, s.prev 1, s.prev 2 with
  | some c, some p1, some p2 =>
      p2.is_bullish && (p1.is_doji || decide (p1.«open» < p1.close))
        && c.is_bearish && decide (c.close < utils.midpoint p2.«open» p2.close)
  | _, _, _ => false

/-- `CandleStream::is_evening_star_doji`.  The Rust source combines the middle
two conjuncts with the non-short-circuiting `&` (`p1.is_doji() &
c.is_bearish()`), which computes the same boolean value as `&&`. -/
def CandleStream.is_evening_star_doji (s : CandleStream Candle) : Bool :=
  match s.get, s.prev 1, s.prev 2 with
  | some c, some p1, some p2 =>
      p2.is_bullish && (p1.is_doji && c.is_bearish)
        && decide (c.close < utils.midpoint p2.«open» p2.close)
  | _, _, _ => false

/-- `CandleStream::is_morning_star`. -/
def CandleStream.is_morning_star (s : CandleStream Candle) : Bool :=
  match s.get, s.prev 1, s.prev 2 with
  | some c, some p1, some p2 =>
      p2.is_bearish && (p1.is_doji || decide (p1.«open» < p1.close))
        && c.is_bullish && decide (c.close > utils.midpoint p2.«open» p2.close)
  | _, _, _ => false

/-- `CandleStream::is_morning_star_doji`. -/
def CandleStream.is_morning_star_doji (s : CandleStream Candle) : Bool :=
  match s.get, s.prev 1, s.prev 2 with
  | some c, some p1, some p2 =>
      p2.is_bearish && p1.is_doji && c.is_bullish
        && decide (c.close > utils.midpoint p2.«open» p2.close)
  | _, _, _ => false

/-- `CandleStream::is_three_white_soldiers`. -/
def CandleStream.is_three_white_soldiers (s : CandleStream Candle) : Bool :=
  match s.get, s.prev 1, s.prev 2 with
  | some c, some p1, some p2 =>
      p2.is_bullish && p1.is_bullish && decide (p1.«open» > p2.close)
        && decide (p1.close > p2.close) && c.is_bullish
        && decide (c.«open» > p1.close) && decide (c.close > p1.close)
  | _, _, _ => false

/-- `CandleStream::is_three_black_crows`. -/
def CandleStream.is_three_black_crows (s : CandleStream Candle) : Bool :=
  match s.get, s.prev 1, s.prev 2 with
  | some c, some p1, some p2 =>
      p2.is_bearish && p1.is_bearish && decide (p1.«open» < p2.close)
        && decide (p1.close < p2.close) && c.is_bearish
        && decide (c.«open» < p1.close) && decide (c.close < p1.close)
  | _, _, _ => false

/-- `CandleStream::is_three_inside_up`. -/
def CandleStream.is_three_inside_up (s : CandleStream Candle) : Bool :=
  match s.get, s.prev 1, s.prev 2 with
  | some c, some p1, some p2 =>
      p2.is_bearish && p1.is_bullish && decide (p1.«open» > p2.close)
        && decide (p1.close < p2.«open») && c.is_bullish
        && decide (c.close > p1.close) && !c.is_doji
  | _, _, _ => false

/-- `CandleStream::is_three_inside_down`. -/
def CandleStream.is_three_inside_down (s : CandleStream Candle) : Bool :=
  match s.get, s.prev 1, s.prev 2 with
  | some c, some p1, some p2 =>
      p2.is_bullish && p1.is_bearish && decide (p1.«open» < p2.close)
        && decide (p1.close > p2.«open») && c.is_bearish
        && decide (c.close < p1.close) && !c.is_doji
  | _, _, _ => false

/-- Occupancy predicate for the ring buffer: the state a `CandleStream` must be
in after `m` pushes — the cursor equals `m % SERIES_SIZE` and exactly the
slots `0 .. min m SERIES_SIZE - 1` hold a bar. -/
def CandleStream.Occ {α : Type} (s : CandleStream α) (m : Nat) : Prop :=
  s.idx = m % SERIES_SIZE ∧
    ∀ j : Fin SERIES_SIZE, (s.series j).isSome = true ↔ (j : Nat) < min m SERIES_SIZE

/-- Concrete test bar: the bearish bar of the spec's bullish-engulfing
scenario, `(101, 102, 99.5, 100.5, 0)` scaled by 2 to keep all prices
integral. -/
def barA : Candle := ⟨202, 204, 199, 201, 0⟩

/-- Concrete test bar: a bullish bar distinct from `barA` in every field. -/
def barB : Candle := ⟨198, 206, 197, 205, 0⟩

/-- Concrete test bar: a third bar distinct from `barA` and `barB`. -/
def barC : Candle := ⟨300, 301, 299, 300, 0⟩

/-- Concrete test bar: a long bearish bar `(210, 211, 200, 201, 0)`. -/
def barP : Candle := ⟨210, 211, 200, 201, 0⟩

/-- Concrete test bar: a bullish bar `(203, 209, 202, 208, 0)` whose body sits
inside `barP`'s body. -/
def barQ : Candle := ⟨203, 209, 202, 208, 0⟩

/-- `CandleStream::get` is the `n = 0` instance of `CandleStream::prev`
(both compute `at(nth_index(0 + 1))`). -/
theorem CandleStream.get_eq_prev_zero {α : Type} (s : CandleStream α) : s.get = s.prev 0 := rfl

/-- `CandleStream::prev` computes exactly the spec-level `resolve` at the same
index. -/
theorem CandleStream.prev_eq_resolve {α : Type} (s : CandleStream α) (k : Nat) :
    s.prev k = s.resolve k := by
  cases k with
  | zero => exact (CandleStream.get_eq_prev_zero s).symm
  | succ n => rfl

/-- For accepted arguments (`n ≤ SERIES_SIZE`), `nth_index` returns the slot
`(idx + SERIES_SIZE - n) % SERIES_SIZE`. -/
theorem CandleStream.nth_index_eq {α : Type} (s : CandleStream α) (n : Nat)
    (h : n ≤ SERIES_SIZE) :
    s.nth_index n = some ((s.idx + SERIES_SIZE - n) % SERIES_SIZE) := by
  unfold CandleStream.nth_index
  rw [if_neg (by omega)]

/-- `prev n` (for `n + 1 ≤ SERIES_SIZE`) reads the slot
`(idx + SERIES_SIZE - (n+1)) % SERIES_SIZE` of the buffer. -/
theorem CandleStream.prev_eq_series {α : Type} (s : CandleStream α) (n : Nat)
    (h : n + 1 ≤ SERIES_SIZE) :
    s.prev n = s.series ⟨(s.idx + SERIES_SIZE - (n + 1)) % SERIES_SIZE,
      Nat.mod_lt _ (by decide)⟩ := by
  unfold CandleStream.prev CandleStream.nth_index
  rw [if_neg (by omega)]
  simp only [Option.some_bind]
  unfold CandleStream.«at»
  rw [dif_pos (Nat.mod_lt _ (by decide))]

/-- The cursor stays below `SERIES_SIZE` after every push. -/
theorem CandleStream.push_idx_lt {α : Type} (s : CandleStream α) (c : α) :
    (s.push c).idx < SERIES_SIZE :=
  Nat.mod_lt _ (by decide)

/-- Immediately after a push, `prev 0` (= `current()`) is the pushed bar. -/
theorem CandleStream.push_prev_zero {α : Type} (s : CandleStream α) (c : α) :
    (s.push c).prev 0 = some c := by
  rw [CandleStream.prev_eq_series _ 0 (by decide)]
  show Function.update s.series _ (some c) _ = some c
  have hidx : ((s.idx + 1) % SERIES_SIZE + SERIES_SIZE - (0 + 1)) % SERIES_SIZE
      = s.idx % SERIES_SIZE := by
    simp only [SERIES_SIZE]
    omega
  rw [show (⟨((s.push c).idx + SERIES_SIZE - (0 + 1)) % SERIES_SIZE,
      Nat.mod_lt _ (by decide)⟩ : Fin SERIES_SIZE)
    = ⟨s.idx % SERIES_SIZE, Nat.mod_lt _ (by decide)⟩ from Fin.ext hidx]
  exact Function.update_same _ _ _

/-- A push shifts every deeper lookup by one: `prev (k+1)` after a push is
`prev k` before it (the pushed slot is never the one read). -/
theorem CandleStream.push_prev_succ {α : Type} (s : CandleStream α) (c : α) (k : Nat)
    (hk : k + 1 < SERIES_SIZE) :
    (s.push c).prev (k + 1) = s.prev k := by
  rw [CandleStream.prev_eq_series _ (k + 1) (by omega),
    CandleStream.prev_eq_series _ k (by omega)]
  show Function.update s.series _ (some c) _ = _
  have hidx : ((s.idx + 1) % SERIES_SIZE + SERIES_SIZE - (k + 1 + 1)) % SERIES_SIZE
      = (s.idx + SERIES_SIZE - (k + 1)) % SERIES_SIZE := by
    simp only [SERIES_SIZE] at *
    omega
  have hne : ((s.idx + SERIES_SIZE - (k + 1)) % SERIES_SIZE) ≠ s.idx % SERIES_SIZE := by
    simp only [SERIES_SIZE] at *
    omega
  rw [show (⟨((s.push c).idx + SERIES_SIZE - (k + 1 + 1)) % SERIES_SIZE,
      Nat.mod_lt _ (by decide)⟩ : Fin SERIES_SIZE)
    = ⟨(s.idx + SERIES_SIZE - (k + 1)) % SERIES_SIZE, Nat.mod_lt _ (by decide)⟩ from Fin.ext hidx]
  exact Function.update_noteq (by simp only [ne_eq, Fin.mk.injEq]; exact hne) _ _

/-- Fundamental addressing lemma: after pushing the bars of `bs` (in order)
onto any state, `prev k` for `k < SERIES_SIZE`, `k < |bs|` returns the
`(k+1)`-th most recently pushed bar, i.e. `bs[|bs| - 1 - k]`. -/
theorem CandleStream.pushList_prev {α : Type} (bs : List α) (s : CandleStream α) (k : Nat)
    (hk : k < SERIES_SIZE) (hkb : k < bs.length) :
    (s.pushList bs).prev k = bs[bs.length - 1 - k]? := by
  induction bs using List.reverseRecOn generalizing k with
  | nil => simp at hkb
  | append_singleton l b ih =>
    rw [show s.pushList (l ++ [b]) = (s.pushList l).push b by
      simp [CandleStream.pushList, List.foldl_append]]
    cases k with
    | zero =>
      rw [CandleStream.push_prev_zero]
      simp
    | succ k' =>
      rw [CandleStream.push_prev_succ _ _ _ hk]
      have hk'b : k' < l.length := by simp at hkb; omega
      rw [ih k' (by omega) hk'b]
      have hlen : l.length + 1 - 1 - (k' + 1) = l.length - 1 - k' := by omega
      simp only [List.length_append, List.length_singleton, hlen]
      rw [List.getElem?_append, if_pos (by omega)]

/-- Any lookup strictly deeper than the capacity is `none`, in every state. -/
theorem CandleStream.prev_none_of_ge {α : Type} (s : CandleStream α) (k : Nat)
    (h : SERIES_SIZE ≤ k) :
    s.prev k = none := by
  unfold CandleStream.prev CandleStream.nth_index
  rw [if_pos (by omega)]
  rfl

/-- The empty window satisfies the occupancy invariant at push count 0. -/
theorem CandleStream.occ_default (α : Type) : CandleStream.Occ (CandleStream.default α) 0 := by
  constructor
  · rfl
  · intro j
    simp [CandleStream.default]

/-- A push preserves the occupancy invariant, raising the push count by 1. -/
theorem CandleStream.occ_push {α : Type} {s : CandleStream α} {m : Nat}
    (h : CandleStream.Occ s m) (c : α) :
    CandleStream.Occ (s.push c) (m + 1) := by
  obtain ⟨hidx, hser⟩ := h
  constructor
  · show (s.idx + 1) % SERIES_SIZE = (m + 1) % SERIES_SIZE
    rw [hidx]
    simp only [SERIES_SIZE]
    omega
  · intro j
    show (Function.update s.series ⟨s.idx % SERIES_SIZE, Nat.mod_lt _ (by decide)⟩
      (some c) j).isSome = true ↔ _
    rw [Function.update_apply]
    by_cases hj : j = ⟨s.idx % SERIES_SIZE, Nat.mod_lt _ (by decide)⟩
    · rw [if_pos hj, hj]
      simp only [Option.isSome_some, true_iff]
      show s.idx % SERIES_SIZE < min (m + 1) SERIES_SIZE
      rw [hidx]
      simp only [SERIES_SIZE]
      omega
    · rw [if_neg hj, hser j]
      have hjne : (j : Nat) ≠ s.idx % SERIES_SIZE := by
        intro heq
        exact hj (Fin.ext heq)
    -- the untouched slots: occupancy is unchanged and the bound shifts by one
      rw [hidx] at hjne
      have hjlt : (j : Nat) < SERIES_SIZE := j.isLt
      simp only [SERIES_SIZE] at hjne hjlt ⊢
      omega

/-- Pushing a list preserves the occupancy invariant, raising the push count
by the list length. -/
theorem CandleStream.occ_pushList {α : Type} {s : CandleStream α} {m : Nat}
    (h : CandleStream.Occ s m) (bs : List α) :
    CandleStream.Occ (s.pushList bs) (m + bs.length) := by
  induction bs generalizing s m with
  | nil => simpa [CandleStream.pushList] using h
  | cons b t ih =>
    have hstep := ih (CandleStream.occ_push h b)
    have harith : m + (b :: t).length = m + 1 + t.length := by
      simp [List.length_cons]
      omega
    rw [harith]
    exact hstep

/-- The state reached from the empty window by pushing `bs` satisfies the
occupancy invariant at push count `|bs|`. -/
theorem CandleStream.occ_state {α : Type} (bs : List α) :
    CandleStream.Occ ((CandleStream.default α).pushList bs) bs.length := by
  have := CandleStream.occ_pushList (CandleStream.occ_default α) bs
  simpa using this

/-- With fewer than `k + 1` pushes ever made, `prev k` is `none` even for an
in-range `k`: the computed slot is a never-written one. -/
theorem CandleStream.prev_none_of_short {α : Type} (bs : List α) (k : Nat)
    (hk : k < SERIES_SIZE) (hshort : bs.length ≤ k) :
    ((CandleStream.default α).pushList bs).prev k = none := by
  obtain ⟨hidx, hser⟩ := CandleStream.occ_state (α := α) bs
  rw [CandleStream.prev_eq_series _ k (by omega)]
  rw [← Option.not_isSome_iff_eq_none]
  intro hsome
  have hlt := (hser _).mp hsome
  simp only [hidx, SERIES_SIZE] at hlt
  simp only [SERIES_SIZE] at hk
  omega

/-- C1: Ring addressing is correct across wraparound: for every push sequence
into a new capacity-5 window and every `k < SERIES_SIZE` with at least `k+1`
pushes made, the "k bars ago" lookup (`resolve`, with `k = 0` being
`current()`) returns exactly the `(k+1)`-th most recently pushed bar, and the
lookup goes through the slot `(cursor - 1 - k) mod C`, computed as
`(idx + SERIES_SIZE - (k+1)) % SERIES_SIZE` without `Nat` underflow. -/
theorem ring_addressing_correct (bs : List Candle) (k : Nat) (hk : k < SERIES_SIZE)
    (hkb : k < bs.length) :
    ((CandleStream.default Candle).pushList bs).resolve k = bs[bs.length - 1 - k]? ∧
    ((CandleStream.default Candle).pushList bs).nth_index (k + 1)
      = some ((((CandleStream.default Candle).pushList bs).idx + SERIES_SIZE - (k + 1))
          % SERIES_SIZE) ∧
    k + 1 ≤ ((CandleStream.default Candle).pushList bs).idx + SERIES_SIZE := by
  refine ⟨?_, CandleStream.nth_index_eq _ _ (by omega), ?_⟩
  · rw [← CandleStream.prev_eq_resolve]
    exact CandleStream.pushList_prev bs _ k hk hkb
  · simp only [SERIES_SIZE] at hk ⊢
    omega

/-- C1 witness: instantiated at the two-bar stream `[barA, barB]` and `k = 1`;
the lookup one bar back from current returns `barA`. -/
theorem ring_addressing_correct_witness :
    (1 < SERIES_SIZE ∧ 1 < ([barA, barB] : List Candle).length) ∧
    ((CandleStream.default Candle).pushList [barA, barB]).resolve 1
      = [barA, barB][([barA, barB] : List Candle).length - 1 - 1]? :=
  ⟨⟨by decide, by decide⟩, (ring_addressing_correct [barA, barB] 1 (by decide) (by decide)).1⟩

/-- C2 counterexample: after pushing `barA` then `barB`, the claim says
`previous(0)` (= the code's `prev(0)`) returns the bar immediately before the
most recently pushed one, i.e. `barA`; the code's `prev 0` in fact returns the
most recently pushed bar `barB`, which differs from `barA`. -/
theorem prev_offset_counterexample :
    ((CandleStream.default Candle).pushList [barA, barB]).prev 0 = some barB ∧
    some barB ≠ some barA := by
  constructor
  · decide
  · decide

/-- C2 amended: the code's `prev` satisfies `prev(n) = resolve(n)`, not
`resolve(n+1)`: `prev 0` is `current()` itself, and the spec's `previous(n)`
(the bar `n+1` positions before the most recently pushed bar) is realized by
`prev (n+1)`. -/
theorem prev_realizes_resolve (s : CandleStream Candle) (bs : List Candle) (n : Nat)
    (h5 : n + 1 < SERIES_SIZE) (hb : n + 1 < bs.length) :
    s.prev 0 = s.get ∧ (∀ k, s.prev k = s.resolve k) ∧
    ((CandleStream.default Candle).pushList bs).prev (n + 1)
      = bs[bs.length - 1 - (n + 1)]? := by
  refine ⟨(CandleStream.get_eq_prev_zero s).symm, CandleStream.prev_eq_resolve s, ?_⟩
  exact CandleStream.pushList_prev bs _ (n + 1) h5 hb

/-- C2 amended witness: on the three-bar stream `[barA, barB, barC]` with
`n = 1`, `prev 2` returns `barA`, the bar two positions before current. -/
theorem prev_realizes_resolve_witness :
    (1 + 1 < SERIES_SIZE ∧ 1 + 1 < ([barA, barB, barC] : List Candle).length) ∧
    ((CandleStream.default Candle).pushList [barA, barB, barC]).prev (1 + 1)
      = [barA, barB, barC][([barA, barB, barC] : List Candle).length - 1 - (1 + 1)]? :=
  ⟨⟨by decide, by decide⟩,
    (prev_realizes_resolve (CandleStream.default Candle) [barA, barB, barC] 1
      (by decide) (by decide)).2.2⟩

/-- C3: pushing exactly 6 bars (of any values) into the capacity-5 window
evicts the 1st pushed bar: the five representable lookups `prev 0 .. prev 4`
return bars 6, 5, 4, 3, 2 respectively — in particular `prev 4` (the claim's
`previous(4)`, the deepest lookup) returns the 2nd-pushed bar, not the 1st and
not `none` — and every deeper lookup (`prev 5`) is out of range. -/
theorem eviction_after_six_pushes (b1 b2 b3 b4 b5 b6 : Candle) :
    ((CandleStream.default Candle).pushList [b1, b2, b3, b4, b5, b6]).prev 4 = some b2 ∧
    ((CandleStream.default Candle).pushList [b1, b2, b3, b4, b5, b6]).prev 3 = some b3 ∧
    ((CandleStream.default Candle).pushList [b1, b2, b3, b4, b5, b6]).prev 2 = some b4 ∧
    ((CandleStream.default Candle).pushList [b1, b2, b3, b4, b5, b6]).prev 1 = some b5 ∧
    ((CandleStream.default Candle).pushList [b1, b2, b3, b4, b5, b6]).prev 0 = some b6 ∧
    ((CandleStream.default Candle).pushList [b1, b2, b3, b4, b5, b6]).prev 5 = none := by
  refine ⟨?_, ?_, ?_, ?_, ?_, CandleStream.prev_none_of_ge _ _ (by decide)⟩ <;>
    · rw [CandleStream.pushList_prev _ _ _ (by decide) (by simp)]
      simp

/-- C4: `resolve k` on the window reached by pushing `bs` is unavailable
exactly in the out-of-range cases: when `k ≥ SERIES_SIZE` (no matter how many
bars were pushed), or when fewer than `k + 1` pushes have occurred (even
though the computed slot index is then in range — a never-written slot is
distinguished from a stale one). -/
theorem resolve_unavailable_iff (bs : List Candle) (k : Nat) :
    ((CandleStream.default Candle).pushList bs).resolve k = none
      ↔ SERIES_SIZE ≤ k ∨ bs.length < k + 1 := by
  rw [← CandleStream.prev_eq_resolve]
  constructor
  · intro h
    by_contra hc
    push_neg at hc
    obtain ⟨h1, h2⟩ := hc
    rw [CandleStream.pushList_prev bs _ k (by omega) (by omega)] at h
    rw [List.getElem?_eq_none_iff] at h
    omega
  · intro h
    rcases h with h | h
    · exact CandleStream.prev_none_of_ge _ _ h
    · by_cases h5 : SERIES_SIZE ≤ k
      · exact CandleStream.prev_none_of_ge _ _ h5
      · exact CandleStream.prev_none_of_short bs k (by omega) (by omega)

/-- Lookups on the freshly constructed window all miss: every `prev n` of the
default stream is `none`. -/
theorem CandleStream.default_prev {α : Type} (n : Nat) :
    (CandleStream.default α).prev n = none := by
  by_cases h : SERIES_SIZE ≤ n + 1
  · by_cases h2 : SERIES_SIZE ≤ n
    · exact CandleStream.prev_none_of_ge _ _ h2
    · rw [CandleStream.prev_eq_series _ n (by omega)]
      rfl
  · rw [CandleStream.prev_eq_series _ n (by omega)]
    rfl

/-- C5: universal boundary policy — each of the 15 pattern queries returns
`false` whenever any bar it requires (`current()`, `prev 1`, and for three-bar
patterns `prev 2`) is unavailable; in particular, on the freshly constructed
window (zero pushes) `current()` and every `prev n` are unavailable and every
pattern query returns `false`. -/
theorem boundary_policy_false (s : CandleStream Candle) :
    (s.get = none ∨ s.prev 1 = none → s.is_bullish_doji_star = false) ∧
    (s.get = none ∨ s.prev 1 = none → s.is_bearish_doji_star = false) ∧
    (s.get = none ∨ s.prev 1 = none → s.is_bullish_engulfing = false) ∧
    (s.get = none ∨ s.prev 1 = none → s.is_bearish_engulfing = false) ∧
    (s.get = none ∨ s.prev 1 = none → s.is_bullish_harami = false) ∧
    (s.get = none ∨ s.prev 1 = none → s.is_bearish_harami = false) ∧
    (s.get = none ∨ s.prev 1 = none → s.is_dark_cloud_cover = false) ∧
    (s.get = none ∨ s.prev 1 = none ∨ s.prev 2 = none → s.is_evening_star = false) ∧
    (s.get = none ∨ s.prev 1 = none ∨ s.prev 2 = none → s.is_evening_star_doji = false) ∧
    (s.get = none ∨ s.prev 1 = none ∨ s.prev 2 = none → s.is_morning_star = false) ∧
    (s.get = none ∨ s.prev 1 = none ∨ s.prev 2 = none → s.is_morning_star_doji = false) ∧
    (s.get = none ∨ s.prev 1 = none ∨ s.prev 2 = none → s.is_three_white_soldiers = false) ∧
    (s.get = none ∨ s.prev 1 = none ∨ s.prev 2 = none → s.is_three_black_crows = false) ∧
    (s.get = none ∨ s.prev 1 = none ∨ s.prev 2 = none → s.is_three_inside_up = false) ∧
    (s.get = none ∨ s.prev 1 = none ∨ s.prev 2 = none → s.is_three_inside_down = false) ∧
    (CandleStream.default Candle).get = none ∧
    (∀ n, (CandleStream.default Candle).prev n = none) ∧
    (CandleStream.default Candle).is_bullish_doji_star = false ∧
    (CandleStream.default Candle).is_bearish_doji_star = false ∧
    (CandleStream.default Candle).is_bullish_engulfing = false ∧
    (CandleStream.default Candle).is_bearish_engulfing = false ∧
    (CandleStream.default Candle).is_bullish_harami = false ∧
    (CandleStream.default Candle).is_bearish_harami = false ∧
    (CandleStream.default Candle).is_dark_cloud_cover = false ∧
    (CandleStream.default Candle).is_evening_star = false ∧
    (CandleStream.default Candle).is_evening_star_doji = false ∧
    (CandleStream.default Candle).is_morning_star = false ∧
    (CandleStream.default Candle).is_morning_star_doji = false ∧
    (CandleStream.default Candle).is_three_white_soldiers = false ∧
    (CandleStream.default Candle).is_three_black_crows = false ∧
    (CandleStream.default Candle).is_three_inside_up = false ∧
    (CandleStream.default Candle).is_three_inside_down = false := by
  have hdg : (CandleStream.default Candle).get = none :=
    (CandleStream.get_eq_prev_zero _).trans (CandleStream.default_prev 0)
  have h_is_bullish_doji_star : ∀ t : CandleStream Candle,
      t.get = none ∨ t.prev 1 = none → t.is_bullish_doji_star = false := by
    intro t h
    unfold CandleStream.is_bullish_doji_star
    rcases h with h | h
    · rw [h]
    · rw [h]
      cases t.get <;> rfl
  have h_is_bearish_doji_star : ∀ t : CandleStream Candle,
      t.get = none ∨ t.prev 1 = none → t.is_bearish_doji_star = false := by
    intro t h
    unfold CandleStream.is_bearish_doji_star
    rcases h with h | h
    · rw [h]
    · rw [h]
      cases t.get <;> rfl
  have h_is_bullish_engulfing : ∀ t : CandleStream Candle,
      t.get = none ∨ t.prev 1 = none → t.is_bullish_engulfing = false := by
    intro t h
    unfold CandleStream.is_bullish_engulfing
    rcases h with h | h
    · rw [h]
    · rw [h]
      cases t.get <;> rfl
  have h_is_bearish_engulfing : ∀ t : CandleStream Candle,
      t.get = none ∨ t.prev 1 = none → t.is_bearish_engulfing = false := by
    intro t h
    unfold CandleStream.is_bearish_engulfing
    rcases h with h | h
    · rw [h]
    · rw [h]
      cases t.get <;> rfl
  have h_is_bullish_harami : ∀ t : CandleStream Candle,
      t.get = none ∨ t.prev 1 = none → t.is_bullish_harami = false := by
    intro t h
    unfold CandleStream.is_bullish_harami
    rcases h with h | h
    · rw [h]
    · rw [h]
      cases t.get <;> rfl
  have h_is_bearish_harami : ∀ t : CandleStream Candle,
      t.get = none ∨ t.prev 1 = none → t.is_bearish_harami = false := by
    intro t h
    unfold CandleStream.is_bearish_harami
    rcases h with h | h
    · rw [h]
    · rw [h]
      cases t.get <;> rfl
  have h_is_dark_cloud_cover : ∀ t : CandleStream Candle,
      t.get = none ∨ t.prev 1 = none → t.is_dark_cloud_cover = false := by
    intro t h
    unfold CandleStream.is_dark_cloud_cover
    rcases h with h | h
    · rw [h]
    · rw [h]
      cases t.get <;> rfl
  have h_is_evening_star : ∀ t : CandleStream Candle,
      t.get = none ∨ t.prev 1 = none ∨ t.prev 2 = none → t.is_evening_star = false := by
    intro t h
    unfold CandleStream.is_evening_star
    rcases h with h | h | h
    · rw [h]
    · rw [h]
      cases t.get <;> rfl
    · rw [h]
      cases t.get <;> cases t.prev 1 <;> rfl
  have h_is_evening_star_doji : ∀ t : CandleStream Candle,
      t.get = none ∨ t.prev 1 = none ∨ t.prev 2 = none → t.is_evening_star_doji = false := by
    intro t h
    unfold CandleStream.is_evening_star_doji
    rcases h with h | h | h
    · rw [h]
    · rw [h]
      cases t.get <;> rfl
    · rw [h]
      cases t.get <;> cases t.prev 1 <;> rfl
  have h_is_morning_star : ∀ t : CandleStream Candle,
      t.get = none ∨ t.prev 1 = none ∨ t.prev 2 = none → t.is_morning_star = false := by
    intro t h
    unfold CandleStream.is_morning_star
    rcases h with h | h | h
    · rw [h]
    · rw [h]
      cases t.get <;> rfl
    · rw [h]
      cases t.get <;> cases t.prev 1 <;> rfl
  have h_is_morning_star_doji : ∀ t : CandleStream Candle,
      t.get = none ∨ t.prev 1 = none ∨ t.prev 2 = none → t.is_morning_star_doji = false := by
    intro t h
    unfold CandleStream.is_morning_star_doji
    rcases h with h | h | h
    · rw [h]
    · rw [h]
      cases t.get <;> rfl
    · rw [h]
      cases t.get <;> cases t.prev 1 <;> rfl
  have h_is_three_white_soldiers : ∀ t : CandleStream Candle,
      t.get = none ∨ t.prev 1 = none ∨ t.prev 2 = none → t.is_three_white_soldiers = false := by
    intro t h
    unfold CandleStream.is_three_white_soldiers
    rcases h with h | h | h
    · rw [h]
    · rw [h]
      cases t.get <;> rfl
    · rw [h]
      cases t.get <;> cases t.prev 1 <;> rfl
  have h_is_three_black_crows : ∀ t : CandleStream Candle,
      t.get = none ∨ t.prev 1 = none ∨ t.prev 2 = none → t.is_three_black_crows = false := by
    intro t h
    unfold CandleStream.is_three_black_crows
    rcases h with h | h | h
    · rw [h]
    · rw [h]
      cases t.get <;> rfl
    · rw [h]
      cases t.get <;> cases t.prev 1 <;> rfl
  have h_is_three_inside_up : ∀ t : CandleStream Candle,
      t.get = none ∨ t.prev 1 = none ∨ t.prev 2 = none → t.is_three_inside_up = false := by
    intro t h
    unfold CandleStream.is_three_inside_up
    rcases h with h | h | h
    · rw [h]
    · rw [h]
      cases t.get <;> rfl
    · rw [h]
      cases t.get <;> cases t.prev 1 <;> rfl
  have h_is_three_inside_down : ∀ t : CandleStream Candle,
      t.get = none ∨ t.prev 1 = none ∨ t.prev 2 = none → t.is_three_inside_down = false := by
    intro t h
    unfold CandleStream.is_three_inside_down
    rcases h with h | h | h
    · rw [h]
    · rw [h]
      cases t.get <;> rfl
    · rw [h]
      cases t.get <;> cases t.prev 1 <;> rfl
  exact ⟨h_is_bullish_doji_star s, h_is_bearish_doji_star s, h_is_bullish_engulfing s, h_is_bearish_engulfing s, h_is_bullish_harami s, h_is_bearish_harami s, h_is_dark_cloud_cover s, h_is_evening_star s, h_is_evening_star_doji s, h_is_morning_star s, h_is_morning_star_doji s, h_is_three_white_soldiers s, h_is_three_black_crows s, h_is_three_inside_up s, h_is_three_inside_down s, hdg, CandleStream.default_prev, h_is_bullish_doji_star _ (Or.inl hdg), h_is_bearish_doji_star _ (Or.inl hdg), h_is_bullish_engulfing _ (Or.inl hdg), h_is_bearish_engulfing _ (Or.inl hdg), h_is_bullish_harami _ (Or.inl hdg), h_is_bearish_harami _ (Or.inl hdg), h_is_dark_cloud_cover _ (Or.inl hdg), h_is_evening_star _ (Or.inl hdg), h_is_evening_star_doji _ (Or.inl hdg), h_is_morning_star _ (Or.inl hdg), h_is_morning_star_doji _ (Or.inl hdg), h_is_three_white_soldiers _ (Or.inl hdg), h_is_three_black_crows _ (Or.inl hdg), h_is_three_inside_up _ (Or.inl hdg), h_is_three_inside_down _ (Or.inl hdg)⟩

/-- C5 witness: the boundary policy applied at the freshly constructed window,
with each "required bar unavailable" hypothesis discharged by
`current() = none` there: all 15 pattern queries evaluate to `false`. -/
theorem boundary_policy_false_witness :
    (CandleStream.default Candle).is_bullish_doji_star = false ∧
    (CandleStream.default Candle).is_bearish_doji_star = false ∧
    (CandleStream.default Candle).is_bullish_engulfing = false ∧
    (CandleStream.default Candle).is_bearish_engulfing = false ∧
    (CandleStream.default Candle).is_bullish_harami = false ∧
    (CandleStream.default Candle).is_bearish_harami = false ∧
    (CandleStream.default Candle).is_dark_cloud_cover = false ∧
    (CandleStream.default Candle).is_evening_star = false ∧
    (CandleStream.default Candle).is_evening_star_doji = false ∧
    (CandleStream.default Candle).is_morning_star = false ∧
    (CandleStream.default Candle).is_morning_star_doji = false ∧
    (CandleStream.default Candle).is_three_white_soldiers = false ∧
    (CandleStream.default Candle).is_three_black_crows = false ∧
    (CandleStream.default Candle).is_three_inside_up = false ∧
    (CandleStream.default Candle).is_three_inside_down = false := by
  have hdg : (CandleStream.default Candle).get = none :=
    (CandleStream.get_eq_prev_zero _).trans (CandleStream.default_prev 0)
  have h := boundary_policy_false (CandleStream.default Candle)
  exact ⟨h.1 (Or.inl hdg), h.2.1 (Or.inl hdg), h.2.2.1 (Or.inl hdg), h.2.2.2.1 (Or.inl hdg), h.2.2.2.2.1 (Or.inl hdg), h.2.2.2.2.2.1 (Or.inl hdg), h.2.2.2.2.2.2.1 (Or.inl hdg), h.2.2.2.2.2.2.2.1 (Or.inl hdg), h.2.2.2.2.2.2.2.2.1 (Or.inl hdg), h.2.2.2.2.2.2.2.2.2.1 (Or.inl hdg), h.2.2.2.2.2.2.2.2.2.2.1 (Or.inl hdg), h.2.2.2.2.2.2.2.2.2.2.2.1 (Or.inl hdg), h.2.2.2.2.2.2.2.2.2.2.2.2.1 (Or.inl hdg), h.2.2.2.2.2.2.2.2.2.2.2.2.2.1 (Or.inl hdg), h.2.2.2.2.2.2.2.2.2.2.2.2.2.2.1 (Or.inl hdg)⟩

/-- C6: for a window with at least two bars, `is_bullish_harami` returns
`true` exactly when prev is bearish, cur is bullish, `cur.open > prev.close`
and `cur.close < prev.open` — the literal spec formula; and (second conjunct)
these are the very inequalities of `is_bearish_engulfing` with the two color
conditions swapped, i.e. the reversed-color engulfing shape, not a
body-containment test. -/
theorem bullish_harami_literal_formula (s : CandleStream Candle) (c p : Candle)
    (hc : s.get = some c) (hp : s.prev 1 = some p) :
    (s.is_bullish_harami = true ↔
      (p.is_bearish = true ∧ c.is_bullish = true ∧ c.«open» > p.close ∧ c.close < p.«open»)) ∧
    (s.is_bearish_engulfing = true ↔
      (p.is_bullish = true ∧ c.is_bearish = true ∧ c.«open» > p.close ∧ c.close < p.«open»)) := by
  constructor
  · unfold CandleStream.is_bullish_harami
    rw [hc, hp]
    simp [Bool.and_eq_true, decide_eq_true_eq, and_assoc]
  · unfold CandleStream.is_bearish_engulfing
    rw [hc, hp]
    simp [Bool.and_eq_true, decide_eq_true_eq, and_assoc]

/-- C6 witness: the harami formula instantiated on the concrete two-bar
stream `[barP, barQ]` (a bearish bar followed by a bullish bar inside it). -/
theorem bullish_harami_literal_formula_witness :
    ((CandleStream.default Candle).pushList [barP, barQ]).get = some barQ ∧
    ((CandleStream.default Candle).pushList [barP, barQ]).prev 1 = some barP ∧
    (((CandleStream.default Candle).pushList [barP, barQ]).is_bullish_harami = true ↔
      (barP.is_bearish = true ∧ barQ.is_bullish = true ∧
        barQ.«open» > barP.close ∧ barQ.close < barP.«open»)) :=
  ⟨by decide, by decide,
    (bullish_harami_literal_formula _ barQ barP (by decide) (by decide)).1⟩

/-- C7: for a window with at least two bars, `is_dark_cloud_cover` returns
`true` exactly when cur is bearish, prev is bullish, `cur.open > prev.close`,
and `cur.close < midpoint(prev.open, prev.close)` with
`midpoint(a,b) = (a+b)/2` and strict comparison; and pushing the bar
`(100, 105, 99.5, 104.5, 0)` then `(105.5, 106, 102, 101.5, 0)` makes the
query return `true` (midpoint `102.25`, close `101.5 < 102.25`, open
`105.5 > 104.5`). -/
theorem dark_cloud_cover_formula :
    (∀ (s : CandleStream Candle) (c p : Candle), s.get = some c → s.prev 1 = some p →
      (s.is_dark_cloud_cover = true ↔
        (c.is_bearish = true ∧ p.is_bullish = true ∧ c.«open» > p.close ∧
          c.close < utils.midpoint p.«open» p.close))) ∧
    ((CandleStream.default Candle).pushList
      [⟨100, 105, 99.5, 104.5, 0⟩, ⟨105.5, 106, 102, 101.5, 0⟩]).is_dark_cloud_cover
      = true := by
  have hform : ∀ (s : CandleStream Candle) (c p : Candle),
      s.get = some c → s.prev 1 = some p →
      (s.is_dark_cloud_cover = true ↔
        (c.is_bearish = true ∧ p.is_bullish = true ∧ c.«open» > p.close ∧
          c.close < utils.midpoint p.«open» p.close)) := by
    intro s c p hc hp
    unfold CandleStream.is_dark_cloud_cover
    rw [hc, hp]
    simp [Bool.and_eq_true, decide_eq_true_eq, and_assoc]
  refine ⟨hform, ?_⟩
  have hg : ((CandleStream.default Candle).pushList
      [⟨100, 105, 99.5, 104.5, 0⟩, ⟨105.5, 106, 102, 101.5, 0⟩]).get
      = some ⟨105.5, 106, 102, 101.5, 0⟩ := by
    rw [CandleStream.get_eq_prev_zero,
      CandleStream.pushList_prev _ _ 0 (by decide) (by simp)]
    rfl
  have hp : ((CandleStream.default Candle).pushList
      [⟨100, 105, 99.5, 104.5, 0⟩, ⟨105.5, 106, 102, 101.5, 0⟩]).prev 1
      = some ⟨100, 105, 99.5, 104.5, 0⟩ := by
    rw [CandleStream.pushList_prev _ _ 1 (by decide) (by simp)]
    rfl
  rw [hform _ _ _ hg hp]
  refine ⟨?_, ?_, ?_, ?_⟩ <;>
    norm_num [Candle.is_bearish, Candle.is_bullish, utils.midpoint]

/-- C7 witness: the formula component applied at the concrete scenario stream,
with both lookup hypotheses discharged. -/
theorem dark_cloud_cover_formula_witness :
    ((CandleStream.default Candle).pushList
      [⟨100, 105, 99.5, 104.5, 0⟩, ⟨105.5, 106, 102, 101.5, 0⟩]).get
      = some ⟨105.5, 106, 102, 101.5, 0⟩ ∧
    (((CandleStream.default Candle).pushList
      [⟨100, 105, 99.5, 104.5, 0⟩, ⟨105.5, 106, 102, 101.5, 0⟩]).is_dark_cloud_cover = true ↔
      ((⟨105.5, 106, 102, 101.5, 0⟩ : Candle).is_bearish = true ∧
        (⟨100, 105, 99.5, 104.5, 0⟩ : Candle).is_bullish = true ∧
        (⟨105.5, 106, 102, 101.5, 0⟩ : Candle).«open»
          > (⟨100, 105, 99.5, 104.5, 0⟩ : Candle).close ∧
        (⟨105.5, 106, 102, 101.5, 0⟩ : Candle).close
          < utils.midpoint (⟨100, 105, 99.5, 104.5, 0⟩ : Candle).«open»
              (⟨100, 105, 99.5, 104.5, 0⟩ : Candle).close)) := by
  have hg : ((CandleStream.default Candle).pushList
      [⟨100, 105, 99.5, 104.5, 0⟩, ⟨105.5, 106, 102, 101.5, 0⟩]).get
      = some ⟨105.5, 106, 102, 101.5, 0⟩ := by
    rw [CandleStream.get_eq_prev_zero,
      CandleStream.pushList_prev _ _ 0 (by decide) (by simp)]
    rfl
  have hp : ((CandleStream.default Candle).pushList
      [⟨100, 105, 99.5, 104.5, 0⟩, ⟨105.5, 106, 102, 101.5, 0⟩]).prev 1
      = some ⟨100, 105, 99.5, 104.5, 0⟩ := by
    rw [CandleStream.pushList_prev _ _ 1 (by decide) (by simp)]
    rfl
  exact ⟨hg, dark_cloud_cover_formula.1 _ _ _ hg hp⟩

/-- C8: for every bar (any four prices, including degenerate `high < low`),
`range = max(high - low, 0.001) = max(high - low, 1/1000)` and
`body = max(|open - close|, 0.0001) = max(|open - close|, 1/10000)` are both
strictly positive, so each of the five ratio computations divides by the
nonzero `range` or `body`; and `is_doji` holds exactly when
`body / range < 1/10` (the default threshold `0.10`). -/
theorem classifier_epsilon_geometry (c : Candle) :
    c.range = max (c.high - c.low) (1 / 1000) ∧
    c.body = max |c.«open» - c.close| (1 / 10000) ∧
    0 < c.range ∧ 0 < c.body ∧
    c.wick_over_range = c.wick / c.range ∧
    c.wick_over_body = c.wick / c.body ∧
    c.body_over_range = c.body / c.range ∧
    c.tail_over_range = c.tail / c.range ∧
    c.tail_over_body = c.tail / c.body ∧
    (c.is_doji = true ↔ c.body / c.range < 1 / 10) := by
  refine ⟨?_, ?_, ?_, ?_, rfl, rfl, rfl, rfl, rfl, ?_⟩
  · show max (c.high - c.low) 0.001 = max (c.high - c.low) (1 / 1000)
    norm_num
  · show max |c.«open» - c.close| 0.0001 = max |c.«open» - c.close| (1 / 10000)
    norm_num
  · exact lt_of_lt_of_le (by norm_num) (le_max_right (c.high - c.low) 0.001)
  · exact lt_of_lt_of_le (by norm_num) (le_max_right |c.«open» - c.close| 0.0001)
  · unfold Candle.is_doji Candle.body_over_range
    rw [decide_eq_true_eq]
    norm_num

/-- C9: in every window state, the Doji variant of each star pattern implies
its base pattern: `is_morning_star_doji → is_morning_star` and
`is_evening_star_doji → is_evening_star` (the variant strictly strengthens
the middle-bar condition from `is_doji ∨ open < close` to `is_doji`). -/
theorem star_doji_strengthens (s : CandleStream Candle) :
    (s.is_morning_star_doji = true → s.is_morning_star = true) ∧
    (s.is_evening_star_doji = true → s.is_evening_star = true) := by
  constructor
  · intro h
    unfold CandleStream.is_morning_star_doji at h
    unfold CandleStream.is_morning_star
    cases hg : s.get <;> cases h1 : s.prev 1 <;> cases h2 : s.prev 2 <;>
      rw [hg, h1, h2] at h <;>
      simp_all [Bool.and_eq_true, Bool.or_eq_true]
  · intro h
    unfold CandleStream.is_evening_star_doji at h
    unfold CandleStream.is_evening_star
    cases hg : s.get <;> cases h1 : s.prev 1 <;> cases h2 : s.prev 2 <;>
      rw [hg, h1, h2] at h <;>
      simp_all [Bool.and_eq_true, Bool.or_eq_true]

/-- C9 witness: the two implications applied at concrete streams — the spec's
morning-star scenario bars (whose middle bar is a doji) and the source
doctest's evening-star-doji bars. -/
theorem star_doji_strengthens_witness :
    ((CandleStream.default Candle).pushList
      [⟨52, 52.5, 48, 48.5, 0⟩, ⟨48.2, 48.9, 47.5, 48.3, 0⟩,
        ⟨48.7, 51.5, 48.5, 51.2, 0⟩]).is_morning_star = true ∧
    ((CandleStream.default Candle).pushList
      [⟨100, 106, 99.5, 105.5, 0⟩, ⟨106.1, 107, 105.8, 106.1, 0⟩,
        ⟨105, 105.2, 99.8, 101, 0⟩]).is_evening_star = true := by
  have hmg : ((CandleStream.default Candle).pushList
      [⟨52, 52.5, 48, 48.5, 0⟩, ⟨48.2, 48.9, 47.5, 48.3, 0⟩,
        ⟨48.7, 51.5, 48.5, 51.2, 0⟩]).get = some ⟨48.7, 51.5, 48.5, 51.2, 0⟩ := by
    rw [CandleStream.get_eq_prev_zero,
      CandleStream.pushList_prev _ _ 0 (by decide) (by simp)]
    rfl
  have hm1 : ((CandleStream.default Candle).pushList
      [⟨52, 52.5, 48, 48.5, 0⟩, ⟨48.2, 48.9, 47.5, 48.3, 0⟩,
        ⟨48.7, 51.5, 48.5, 51.2, 0⟩]).prev 1 = some ⟨48.2, 48.9, 47.5, 48.3, 0⟩ := by
    rw [CandleStream.pushList_prev _ _ 1 (by decide) (by simp)]
    rfl
  have hm2 : ((CandleStream.default Candle).pushList
      [⟨52, 52.5, 48, 48.5, 0⟩, ⟨48.2, 48.9, 47.5, 48.3, 0⟩,
        ⟨48.7, 51.5, 48.5, 51.2, 0⟩]).prev 2 = some ⟨52, 52.5, 48, 48.5, 0⟩ := by
    rw [CandleStream.pushList_prev _ _ 2 (by decide) (by simp)]
    rfl
  have hms : ((CandleStream.default Candle).pushList
      [⟨52, 52.5, 48, 48.5, 0⟩, ⟨48.2, 48.9, 47.5, 48.3, 0⟩,
        ⟨48.7, 51.5, 48.5, 51.2, 0⟩]).is_morning_star_doji = true := by
    unfold CandleStream.is_morning_star_doji
    rw [hmg, hm1, hm2]
    simp only [Bool.and_eq_true, decide_eq_true_eq]
    refine ⟨⟨⟨?_, ?_⟩, ?_⟩, ?_⟩ <;>
      norm_num [Candle.is_bearish, Candle.is_bullish, Candle.is_doji, Candle.body_over_range,
        Candle.body, Candle.range, utils.midpoint, max_def, abs_of_nonneg, abs_of_nonpos]
  have heg : ((CandleStream.default Candle).pushList
      [⟨100, 106, 99.5, 105.5, 0⟩, ⟨106.1, 107, 105.8, 106.1, 0⟩,
        ⟨105, 105.2, 99.8, 101, 0⟩]).get = some ⟨105, 105.2, 99.8, 101, 0⟩ := by
    rw [CandleStream.get_eq_prev_zero,
      CandleStream.pushList_prev _ _ 0 (by decide) (by simp)]
    rfl
  have he1 : ((CandleStream.default Candle).pushList
      [⟨100, 106, 99.5, 105.5, 0⟩, ⟨106.1, 107, 105.8, 106.1, 0⟩,
        ⟨105, 105.2, 99.8, 101, 0⟩]).prev 1 = some ⟨106.1, 107, 105.8, 106.1, 0⟩ := by
    rw [CandleStream.pushList_prev _ _ 1 (by decide) (by simp)]
    rfl
  have he2 : ((CandleStream.default Candle).pushList
      [⟨100, 106, 99.5, 105.5, 0⟩, ⟨106.1, 107, 105.8, 106.1, 0⟩,
        ⟨105, 105.2, 99.8, 101, 0⟩]).prev 2 = some ⟨100, 106, 99.5, 105.5, 0⟩ := by
    rw [CandleStream.pushList_prev _ _ 2 (by decide) (by simp)]
    rfl
  have hes : ((CandleStream.default Candle).pushList
      [⟨100, 106, 99.5, 105.5, 0⟩, ⟨106.1, 107, 105.8, 106.1, 0⟩,
        ⟨105, 105.2, 99.8, 101, 0⟩]).is_evening_star_doji = true := by
    unfold CandleStream.is_evening_star_doji
    rw [heg, he1, he2]
    simp only [Bool.and_eq_true, decide_eq_true_eq]
    refine ⟨⟨?_, ?_, ?_⟩, ?_⟩ <;>
      norm_num [Candle.is_bearish, Candle.is_bullish, Candle.is_doji, Candle.body_over_range,
        Candle.body, Candle.range, utils.midpoint, max_def, abs_of_nonneg, abs_of_nonpos]
  exact ⟨(star_doji_strengthens _).1 hms, (star_doji_strengthens _).2 hes⟩

/-- C10: reachable-state invariant of the buffer — in every state reachable
from the new window by pushes, the cursor `idx` equals (pushes mod 5) and is
strictly below `SERIES_SIZE`; the occupied slots are exactly slots
`0 .. min(pushes, SERIES_SIZE) - 1`; `idx + SERIES_SIZE - n` in `nth_index`
never underflows for any accepted `n ≤ SERIES_SIZE`; and the slot index
`idx % SERIES_SIZE` written by `push` is in bounds. -/
theorem reachable_buffer_invariant (bs : List Candle) :
    ((CandleStream.default Candle).pushList bs).idx = bs.length % SERIES_SIZE ∧
    ((CandleStream.default Candle).pushList bs).idx < SERIES_SIZE ∧
    (∀ j : Fin SERIES_SIZE,
      ((((CandleStream.default Candle).pushList bs).series j).isSome = true
        ↔ (j : Nat) < min bs.length SERIES_SIZE)) ∧
    (∀ n, n ≤ SERIES_SIZE →
      n ≤ ((CandleStream.default Candle).pushList bs).idx + SERIES_SIZE) ∧
    ((CandleStream.default Candle).pushList bs).idx % SERIES_SIZE < SERIES_SIZE := by
  obtain ⟨hidx, hser⟩ := CandleStream.occ_state (α := Candle) bs
  refine ⟨hidx, ?_, hser, ?_, Nat.mod_lt _ (by decide)⟩
  · rw [hidx]
    exact Nat.mod_lt _ (by decide)
  · intro n hn
    omega

/-- C10 witness: the no-underflow bound applied at the one-bar stream with the
deepest accepted argument `n = SERIES_SIZE`. -/
theorem reachable_buffer_invariant_witness :
    SERIES_SIZE ≤ SERIES_SIZE ∧
    SERIES_SIZE ≤ ((CandleStream.default Candle).pushList [barA]).idx + SERIES_SIZE :=
  ⟨Nat.le_refl _,
    (reachable_buffer_invariant [barA]).2.2.2.1 SERIES_SIZE (Nat.le_refl _)⟩
